import Mathlib

/-!
Shallow embedding of the user-management core of the
node-temporal-postgres-boilerplate repository.

The data model follows the `users` migration and the Sequelize model options
(`timestamps: true`, `paranoid: true`, `createdAt: created_on`,
`updatedAt: updated_on`, `deletedAt: deleted_on`).  Activities are translated
from `src/temporal/activities/user/activities.ts`; each workflow is translated
from its file under `src/temporal/workflows/user/` as a function of the
results delivered for its awaited activity calls (a rejected activity call
rethrows at the `await`, which the `Except` bind reproduces; none of the
workflow bodies contains a try/catch).  The HTTP create controller and the
client-side workflow-id builders are translated from the API controller and
`src/temporal/clients/user.client.js`.
-/

/-- Row of the `users` table.  The migration declares `id` as the auto-increment
primary key (its only unique column), string columns `name`, `email`, `mobile`,
`suspend_status` defaulting to false, nullable audit columns, and the
timestamp columns managed by Sequelize.  Timestamps are modelled as naturals;
the order of rows in a `Store` models the enumeration order in which the SQL
store returns rows for the activities' queries, none of which specifies an
ORDER BY clause. -/
structure UserRow where
  id : Nat
  name : String
  email : String
  mobile : String
  suspend_status : Bool
  updated_by : Option Nat
  created_by : Option Nat
  deleted_by : Option Nat
  created_on : Nat
  updated_on : Nat
  deleted_on : Option Nat
deriving Repr, DecidableEq

/-- State of the `users` table: the rows in store enumeration order together
with the next auto-increment id. -/
structure Store where
  users : List UserRow
  nextId : Nat
deriving Repr, DecidableEq

/-- Liveness under the paranoid (soft-delete) model: queries see only rows
whose `deleted_on` is null. -/
def UserRow.live (u : UserRow) : Bool := u.deleted_on.isNone

/-- Projection returned by `checkDuplicateByMobileActivity`
(`attributes: ['id', 'mobile']`). -/
structure DupProj where
  id : Nat
  mobile : String
deriving Repr, DecidableEq

/-- Projection shape shared by `createUserActivity`'s return value
(`{id, name, email, mobile}`) and `getUserActivity`'s query
(`attributes: ['id', 'mobile', 'name', 'email']`). -/
structure UserProj where
  id : Nat
  name : String
  email : String
  mobile : String
deriving Repr, DecidableEq

/-- Create input destructured by `createUserActivity`: `{name, email, mobile}`. -/
structure UserData where
  name : String
  email : String
  mobile : String
deriving Repr, DecidableEq

/-- Embeds `checkDuplicateByMobileActivity`: `User.findOne` with
`attributes: ['id','mobile']`, `where: { mobile }` on the paranoid model;
the first live row carrying the mobile is projected, absence is `none`
(the activity returns the query result directly and raises nothing). -/
def checkDuplicateByMobileActivity (s : Store) (mobile : String) : Option DupProj :=
  (s.users.find? (fun u => u.live && u.mobile == mobile)).map
    (fun u => { id := u.id, mobile := u.mobile })

/-- Embeds `createUserActivity`: `User.create({name, email, mobile})` inserts a
row with the next auto-increment id, migration defaults, and fresh
`created_on`/`updated_on` timestamps; the activity returns
`{id, name, email, mobile}` of the created row.  The migration places no
unique constraint on `mobile` or `email`, so the insert itself always
succeeds at the store level. -/
def createUserActivity (s : Store) (now : Nat) (d : UserData) : UserProj × Store :=
  let row : UserRow :=
    { id := s.nextId, name := d.name, email := d.email, mobile := d.mobile
      suspend_status := false, updated_by := none, created_by := none
      deleted_by := none, created_on := now, updated_on := now, deleted_on := none }
  ({ id := row.id, name := row.name, email := row.email, mobile := row.mobile },
   { users := s.users ++ [row], nextId := s.nextId + 1 })

/-- Partial update payload (`UserUpdateAttributes`): any subset of the columns
other than `id` and the managed timestamps may be present; nullable columns
may be set to null. -/
structure UserPatch where
  name : Option String := none
  email : Option String := none
  mobile : Option String := none
  suspend_status : Option Bool := none
  updated_by : Option (Option Nat) := none
  created_by : Option (Option Nat) := none
  deleted_by : Option (Option Nat) := none
deriving Repr, DecidableEq

/-- Applies the SET clause of `User.update`: present patch fields overwrite the
row, absent ones leave it unchanged. -/
def applyPatch (p : UserPatch) (u : UserRow) : UserRow :=
  { u with
    name := p.name.getD u.name
    email := p.email.getD u.email
    mobile := p.mobile.getD u.mobile
    suspend_status := p.suspend_status.getD u.suspend_status
    updated_by := p.updated_by.getD u.updated_by
    created_by := p.created_by.getD u.created_by
    deleted_by := p.deleted_by.getD u.deleted_by }

/-- Effect of `User.update(userData, { where: { id } })` on one row: a live row
matching the id receives the patch and, because the model runs with
`timestamps: true`, a fresh `updated_on`; other rows are untouched. -/
def updateRow (id now : Nat) (p : UserPatch) (u : UserRow) : UserRow :=
  if u.live && u.id == id then { applyPatch p u with updated_on := now } else u

/-- Return value of `updateUserActivity`. -/
structure UpdateResult where
  id : Nat
  success : Bool
deriving Repr, DecidableEq

/-- Embeds `updateUserActivity`: runs `User.update` and returns
`{id, success: true}` unconditionally — the affected-row count reported by
the store is never inspected. -/
def updateUserActivity (s : Store) (now : Nat) (id : Nat) (p : UserPatch) :
    UpdateResult × Store :=
  ({ id := id, success := true },
   { users := s.users.map (updateRow id now p), nextId := s.nextId })

/-- Embeds `getUserActivity`: `User.findOne` with
`attributes: ['id','mobile','name','email']`, `where: { id }`; returns the
projected row or `none`. -/
def getUserActivity (s : Store) (id : Nat) : Option UserProj :=
  (s.users.find? (fun u => u.live && u.id == id)).map
    (fun u => { id := u.id, name := u.name, email := u.email, mobile := u.mobile })

/-- Embeds `getAllUsersActivity`: `User.findAll({ limit, offset })` with no
order clause — the page is the offset/limit slice of the live rows in store
enumeration order. -/
def getAllUsersActivity (s : Store) (limit offset : Nat) : List UserRow :=
  ((s.users.filter (fun u => u.live)).drop offset).take limit

/-- Failure of an activity call as delivered to the awaiting workflow:
either the store reported a uniqueness violation
(`SequelizeUniqueConstraintError`) or some other infrastructure failure. -/
inductive ActivityError
  | uniqueViolation
  | infrastructure
deriving Repr, DecidableEq

/-- Result object built by `createUserWorkflow`. -/
structure CreateWorkflowResult where
  code : Nat
  message : String
  id : Option Nat := none
  user : Option UserProj := none
deriving Repr, DecidableEq

/-- Message of the 409 branch of `createUserWorkflow`. -/
def dupMessage : String := "Duplicate mobile number found. Possible fraud."

/-- Message of the 201 branch of `createUserWorkflow`. -/
def createdMessage : String := "Your account created successfully."

/-- Embeds `createUserWorkflow` as a function of the results delivered for its
two awaited activity calls: await the duplicate check; when a duplicate is
found return the 409 outcome (the create activity is never consulted); when
none is found await the create and return the 201 outcome.  The body has no
try/catch, so a rejected activity rethrows through the bind. -/
def createUserWorkflow (checkRes : Except ActivityError (Option DupProj))
    (createRes : Except ActivityError UserProj) :
    Except ActivityError CreateWorkflowResult := do
  let duplicate ← checkRes
  match duplicate with
  | some d =>
      pure { code := 409, id := some d.id, message := dupMessage }
  | none => do
      let result ← createRes
      pure { code := 201, message := createdMessage, id := some result.id
             user := some result }

/-- Result object built by `updateUserWorkflow`. -/
structure UpdateWorkflowResult where
  code : Nat
  success : Bool
  id : Nat
deriving Repr, DecidableEq

/-- Embeds `updateUserWorkflow`: await the update activity and wrap its
result in a 200 outcome. -/
def updateUserWorkflow (res : Except ActivityError UpdateResult) :
    Except ActivityError UpdateWorkflowResult := do
  let r ← res
  pure { code := 200, success := r.success, id := r.id }

/-- Result object built by `getUserWorkflow`. -/
structure GetWorkflowResult where
  code : Nat
  message : Option String
  user : Option UserProj
deriving Repr, DecidableEq

/-- Embeds `getUserWorkflow`: await the get activity; a null user becomes the
404 outcome, otherwise the 200 outcome carries the user. -/
def getUserWorkflow (res : Except ActivityError (Option UserProj)) :
    Except ActivityError GetWorkflowResult := do
  let user ← res
  match user with
  | none => pure { code := 404, message := some "User not found", user := none }
  | some u => pure { code := 200, message := none, user := some u }

/-- Result object built by `getAllUsersWorkflow`. -/
structure ListWorkflowResult where
  code : Nat
  users : List UserRow
deriving Repr, DecidableEq

/-- Embeds `getAllUsersWorkflow` composed with its single activity: the
destructuring defaults resolve absent parameters to `limit = 100`,
`offset = 0`, the activity is called with the resolved pair, and the users it
returns are wrapped in a 200 outcome. -/
def getAllUsersWorkflow (s : Store) (limitOpt offsetOpt : Option Nat) :
    ListWorkflowResult :=
  { code := 200, users := getAllUsersActivity s (limitOpt.getD 100) (offsetOpt.getD 0) }

/-- Error value reaching the controller's catch clause: JavaScript errors are
distinguished by their `name` string. -/
structure JsError where
  name : String
  message : String
deriving Repr, DecidableEq

/-- Response produced by the user create controller: a JSON status response,
or delegation to the error middleware. -/
inductive ControllerResponse
  | json (status : Nat) (message : String) (id : Option Nat) (user : Option UserProj)
      (error : Option String)
  | next (e : JsError)
deriving Repr, DecidableEq

/-- Embeds the HTTP `create` controller: dispatch the workflow; a 409 result
becomes a 409 response with message and id, a 400 result a 400 response,
anything else the 201 response; an error escaping the dispatch is mapped to a
409 response with message "Duplicate" when its name is
`SequelizeUniqueConstraintError`, and passed to the error middleware
otherwise. -/
def controllerCreate (result : Except JsError CreateWorkflowResult) :
    ControllerResponse :=
  match result with
  | Except.ok r =>
      if r.code = 409 then ControllerResponse.json 409 r.message r.id none none
      else if r.code = 400 then ControllerResponse.json 400 r.message none none none
      else ControllerResponse.json 201 r.message r.id r.user none
  | Except.error err =>
      if err.name = "SequelizeUniqueConstraintError" then
        ControllerResponse.json 409 "Duplicate" none none (some err.message)
      else ControllerResponse.next err

/-- Embeds the workflow-id built by `startCreateUser`. -/
def createUserWorkflowId (mobile : String) (now : Nat) : String :=
  "create-user-" ++ mobile ++ "-" ++ toString now

/-- Embeds the workflow-id built by `startUpdateUser`. -/
def updateUserWorkflowId (id now : Nat) : String :=
  "update-user-" ++ toString id ++ "-" ++ toString now

/-- Embeds the workflow-id built by `startGetUser`. -/
def getUserWorkflowId (id now : Nat) : String :=
  "get-user-" ++ toString id ++ "-" ++ toString now

/-- Embeds the workflow-id built by `startGetAllUsers`: a timestamp only. -/
def getAllUsersWorkflowId (now : Nat) : String :=
  "get-all-users-" ++ toString now

/-- Well-formed store: every row's id is below the next auto-increment id
(as maintained by the auto-increment discipline of the primary key). -/
def Store.WF (s : Store) : Prop := ∀ u ∈ s.users, u.id < s.nextId

/-- Fixture row with migration defaults, used in concrete instances. -/
def mkRow (id : Nat) (name email mobile : String) : UserRow :=
  { id := id, name := name, email := email, mobile := mobile
    suspend_status := false, updated_by := none, created_by := none
    deleted_by := none, created_on := 0, updated_on := 0, deleted_on := none }

/-- C1 counterexample: with no duplicate found and the create activity failing
with a store-level uniqueness violation (the race window between check and
create), `createUserWorkflow` does not produce a 409 business outcome: the
error propagates out of the workflow unchanged. -/
theorem createUser_uniqueViolation_not_surfaced_as_409 :
    createUserWorkflow (Except.ok none) (Except.error ActivityError.uniqueViolation) =
      Except.error ActivityError.uniqueViolation := rfl

/-- C1 (amended): the CreateUser workflow contains no catch, so an activity
failure — a uniqueness violation included — propagates out of the workflow;
the 409 mapping for a store-level uniqueness violation lives in the HTTP
create controller, whose catch turns a `SequelizeUniqueConstraintError` into a
409 response with message "Duplicate". -/
theorem createUser_uniqueViolation_propagates_controller_maps_409
    (e : ActivityError) (err : JsError)
    (h : err.name = "SequelizeUniqueConstraintError") :
    createUserWorkflow (Except.ok none) (Except.error e) = Except.error e ∧
    controllerCreate (Except.error err) =
      ControllerResponse.json 409 "Duplicate" none none (some err.message) := by
  refine ⟨rfl, ?_⟩
  simp [controllerCreate, h]

/-- C1 witness: the amended theorem at a concrete error. -/
theorem createUser_uniqueViolation_propagates_witness :
    createUserWorkflow (Except.ok none) (Except.error ActivityError.uniqueViolation) =
      Except.error ActivityError.uniqueViolation ∧
    controllerCreate (Except.error
        { name := "SequelizeUniqueConstraintError", message := "unique violation on mobile" }) =
      ControllerResponse.json 409 "Duplicate" none none (some "unique violation on mobile") :=
  createUser_uniqueViolation_propagates_controller_maps_409
    ActivityError.uniqueViolation
    { name := "SequelizeUniqueConstraintError", message := "unique violation on mobile" }
    rfl

/-- C2: for every create input, when the duplicate check on the mobile key
finds a duplicate the workflow terminates with the 409 outcome carrying the
duplicate's id, whatever the create activity would deliver (it is never
consulted); when the check finds none, the workflow awaits the create and
terminates with the 201 outcome carrying the created id and record. -/
theorem createUser_branches (s : Store) (i : UserData) (now : Nat) :
    (∀ d : DupProj, checkDuplicateByMobileActivity s i.mobile = some d →
      ∀ createRes : Except ActivityError UserProj,
        createUserWorkflow (Except.ok (some d)) createRes =
          Except.ok { code := 409, id := some d.id, message := dupMessage }) ∧
    (checkDuplicateByMobileActivity s i.mobile = none →
      createUserWorkflow (Except.ok none) (Except.ok (createUserActivity s now i).1) =
        Except.ok { code := 201, message := createdMessage, id := some s.nextId
                    user := some { id := s.nextId, name := i.name, email := i.email
                                   mobile := i.mobile } }) := by
  constructor
  · intro d _ createRes
    rfl
  · intro _
    rfl

/-- C2 witness: the duplicate branch at a concrete store holding the mobile,
with the create activity deliberately failing to exhibit that it is not
consulted. -/
theorem createUser_branches_witness :
    createUserWorkflow (Except.ok (some { id := 1, mobile := "1234567890" }))
        (Except.error ActivityError.infrastructure) =
      Except.ok { code := 409, id := some 1, message := dupMessage } :=
  (createUser_branches { users := [mkRow 1 "John Doe" "john@x.com" "1234567890"], nextId := 2 }
      { name := "John Doe", email := "john@x.com", mobile := "1234567890" } 0).1
    { id := 1, mobile := "1234567890" } (by decide) (Except.error ActivityError.infrastructure)

/-- C4: the GetUser workflow terminates with the 404 outcome and message
"User not found" exactly when the get activity reports absence, and with the
200 outcome carrying the record when it exists; both cases are ordinary
return values of the workflow. -/
theorem getUser_outcomes (s : Store) (id : Nat) :
    (getUserActivity s id = none →
      getUserWorkflow (Except.ok (getUserActivity s id)) =
        Except.ok { code := 404, message := some "User not found", user := none }) ∧
    (∀ u : UserProj, getUserActivity s id = some u →
      getUserWorkflow (Except.ok (getUserActivity s id)) =
        Except.ok { code := 200, message := none, user := some u }) := by
  constructor
  · intro h
    rw [h]
    rfl
  · intro u h
    rw [h]
    rfl

/-- C4 witness: the 404 branch on the empty store. -/
theorem getUser_outcomes_witness :
    getUserWorkflow (Except.ok (getUserActivity { users := [], nextId := 0 } 1)) =
      Except.ok { code := 404, message := some "User not found", user := none } :=
  (getUser_outcomes { users := [], nextId := 0 } 1).1 rfl

/-- C7: with both pagination parameters unspecified, the ListUsers workflow
calls the list activity with limit 100 and offset 0 and terminates with the
200 outcome carrying the returned page; the call is the same one an explicit
limit 100 / offset 0 request makes. -/
theorem listUsers_defaults (s : Store) :
    getAllUsersWorkflow s none none =
      { code := 200, users := getAllUsersActivity s 100 0 } ∧
    getAllUsersWorkflow s none none = getAllUsersWorkflow s (some 100) (some 0) :=
  ⟨rfl, rfl⟩

/-- C3: for every key, the duplicate-check activity returns either the
projection (id and mobile only) of a live record in the store carrying that
mobile, or the structured absence value `none`; it reports `none` exactly
when no live record carries the key, and being a total function into `Option`
it raises nothing on absence. -/
theorem checkDuplicate_projection_or_none (s : Store) (m : String) :
    (∀ p : DupProj, checkDuplicateByMobileActivity s m = some p →
      ∃ u : UserRow, u ∈ s.users ∧ u.live = true ∧ u.mobile = m ∧
        p = { id := u.id, mobile := u.mobile }) ∧
    (checkDuplicateByMobileActivity s m = none ↔
      ∀ u ∈ s.users, u.live = true → u.mobile ≠ m) := by
  constructor
  · intro p hp
    rcases hfind : s.users.find? (fun u => u.live && u.mobile == m) with _ | u
    · rw [checkDuplicateByMobileActivity, hfind] at hp
      simp at hp
    · have hmem := List.mem_of_find?_eq_some hfind
      have hpred := List.find?_some hfind
      simp only [Bool.and_eq_true, beq_iff_eq] at hpred
      rw [checkDuplicateByMobileActivity, hfind] at hp
      simp only [Option.map, Option.some.injEq] at hp
      exact ⟨u, hmem, hpred.1, hpred.2, hp.symm⟩
  · rw [checkDuplicateByMobileActivity]
    rw [Option.map_eq_none']
    rw [List.find?_eq_none]
    constructor
    · intro h u hu hlive
      have := h u hu
      simp only [Bool.and_eq_true, beq_iff_eq, not_and] at this
      exact this hlive
    · intro h u hu
      simp only [Bool.and_eq_true, beq_iff_eq, not_and]
      exact h u hu

/-- C3 witness: the projection branch at a concrete one-row store. -/
theorem checkDuplicate_projection_witness :
    ∃ u : UserRow, u ∈ ({ users := [mkRow 1 "a" "a@x" "7"], nextId := 2 } : Store).users ∧
      u.live = true ∧ u.mobile = "7" ∧
      ({ id := 1, mobile := "7" } : DupProj) = { id := u.id, mobile := u.mobile } :=
  (checkDuplicate_projection_or_none { users := [mkRow 1 "a" "a@x" "7"], nextId := 2 } "7").1
    { id := 1, mobile := "7" } (by decide)

/-- C10: the update activity's return value is independent of the store — for
every store, an id with no matching record included, a succeeding update call
yields `{id, success: true}` and the workflow the 200 outcome; on a store
with no matching row the rows are also left untouched, so a non-existent id
is indistinguishable from an existing one at the public interface. -/
theorem update_nonexistent_indistinguishable (s : Store) (now id : Nat) (p : UserPatch)
    (habsent : ∀ u ∈ s.users, u.id ≠ id) :
    (∀ s2 : Store, (updateUserActivity s2 now id p).1 = { id := id, success := true } ∧
      updateUserWorkflow (Except.ok (updateUserActivity s2 now id p).1) =
        Except.ok { code := 200, success := true, id := id }) ∧
    (updateUserActivity s now id p).2 = s := by
  constructor
  · intro s2
    exact ⟨rfl, rfl⟩
  · rw [updateUserActivity]
    simp only
    have hmap : ∀ l : List UserRow, (∀ u ∈ l, u.id ≠ id) → l.map (updateRow id now p) = l := by
      intro l
      induction l with
      | nil => intro _; rfl
      | cons a t ih =>
        intro hl
        have hid : (a.id == id) = false := by
          simp [hl a (by simp)]
        simp only [List.map_cons, List.cons.injEq]
        refine ⟨?_, ih (fun x hx => hl x (by simp [hx]))⟩
        rw [updateRow]
        simp [hid]
    rw [hmap s.users habsent]

/-- C10 witness: the theorem at a store holding only a row with a different
id, so the updated id matches nothing. -/
theorem update_nonexistent_witness :
    (updateUserActivity { users := [mkRow 1 "a" "a@x" "7"], nextId := 2 } 5 9
        { name := some "b" }).1 = { id := 9, success := true } ∧
    (updateUserActivity { users := [mkRow 1 "a" "a@x" "7"], nextId := 2 } 5 9
        { name := some "b" }).2 = { users := [mkRow 1 "a" "a@x" "7"], nextId := 2 } :=
  ⟨((update_nonexistent_indistinguishable { users := [mkRow 1 "a" "a@x" "7"], nextId := 2 }
      5 9 { name := some "b" } (by decide)).1
      { users := [mkRow 1 "a" "a@x" "7"], nextId := 2 }).1,
   (update_nonexistent_indistinguishable { users := [mkRow 1 "a" "a@x" "7"], nextId := 2 }
      5 9 { name := some "b" } (by decide)).2⟩

/-- Overwriting with a present optional field is idempotent. -/
theorem opt_getD_getD {α : Type} (o : Option α) (x : α) : o.getD (o.getD x) = o.getD x := by
  cases o <;> rfl

/-- Erases the managed `updated_on` timestamp of a row, keeping every
user-supplied field. -/
def stripRow (u : UserRow) : UserRow := { u with updated_on := 0 }

/-- Erases the managed `updated_on` timestamps of a store. -/
def stripUpdatedOn (s : Store) : Store :=
  { users := s.users.map stripRow, nextId := s.nextId }

/-- Re-applying the same patch to a row leaves every field unchanged except
the managed `updated_on` timestamp. -/
theorem updateRow_twice_strip (id t1 t2 : Nat) (p : UserPatch) (u : UserRow) :
    stripRow (updateRow id t2 p (updateRow id t1 p u)) =
      stripRow (updateRow id t1 p u) := by
  by_cases h : (u.live && u.id == id) = true
  · simp only [updateRow, h, if_true]
    have hlive : ({ applyPatch p u with updated_on := t1 } : UserRow).live = u.live := rfl
    have hid : ({ applyPatch p u with updated_on := t1 } : UserRow).id = u.id := by
      simp [applyPatch]
    rw [hlive, hid] at *
    simp only [h, if_true]
    simp [stripRow, applyPatch, opt_getD_getD]
  · simp [updateRow, h]

/-- C5 counterexample: on a one-row store, applying the same partial update
twice (at successive timestamps) does not yield the same final record state
as applying it once — the second application bumps `updated_on` again. -/
theorem update_twice_differs_from_once :
    (updateUserActivity (updateUserActivity
        { users := [mkRow 1 "a" "a@x" "7"], nextId := 2 } 1 1 { name := some "b" }).2
        2 1 { name := some "b" }).2 ≠
    (updateUserActivity { users := [mkRow 1 "a" "a@x" "7"], nextId := 2 } 1 1
        { name := some "b" }).2 := by decide

/-- C5 (amended): applying the same partial update twice through the update
activity yields the same final record state as applying it once on every
field except the managed `updated_on` audit timestamp, which each invocation
refreshes; both invocations return `{id, success: true}` and both workflow
runs terminate with the 200 outcome. -/
theorem update_idempotent_up_to_updated_on (s : Store) (id t1 t2 : Nat) (p : UserPatch) :
    stripUpdatedOn (updateUserActivity (updateUserActivity s t1 id p).2 t2 id p).2 =
      stripUpdatedOn (updateUserActivity s t1 id p).2 ∧
    (updateUserActivity s t1 id p).1 = { id := id, success := true } ∧
    (updateUserActivity (updateUserActivity s t1 id p).2 t2 id p).1 =
      { id := id, success := true } ∧
    updateUserWorkflow (Except.ok (updateUserActivity s t1 id p).1) =
      Except.ok { code := 200, success := true, id := id } ∧
    updateUserWorkflow
        (Except.ok (updateUserActivity (updateUserActivity s t1 id p).2 t2 id p).1) =
      Except.ok { code := 200, success := true, id := id } := by
  refine ⟨?_, rfl, rfl, rfl, rfl⟩
  simp only [updateUserActivity, stripUpdatedOn, List.map_map, Store.mk.injEq,
    Function.comp_def, and_true]
  simp [updateRow_twice_strip]

/-- C6 counterexample: the list activity issues no ordering clause, so over a
store whose enumeration order is not id-ascending the returned page is not
id-ascending either. -/
theorem list_not_sorted_by_id :
    ¬ List.Chain' (fun a b => a ≤ b)
        ((getAllUsersActivity
            { users := [mkRow 2 "b" "b@x" "8", mkRow 1 "a" "a@x" "7"], nextId := 3 } 2 0).map
          (fun u => u.id)) := by
  intro hchain
  rw [show (getAllUsersActivity
      { users := [mkRow 2 "b" "b@x" "8", mkRow 1 "a" "a@x" "7"], nextId := 3 } 2 0).map
      (fun u => u.id) = [2, 1] from rfl] at hchain
  rw [List.chain'_cons] at hchain
  omega

/-- C6 (amended): the list activity returns the offset/limit slice of the live
rows in store enumeration order (the query requests no ordering, so
id-ascending order is not guaranteed); over any fixed enumeration of a
two-record store, page (limit 1, offset 0) followed by page (limit 1,
offset 1) returns exactly the two records — no overlap and no gap. -/
theorem list_two_record_pagination (s : Store) (a b : UserRow)
    (h : s.users.filter (fun u => u.live) = [a, b]) :
    getAllUsersActivity s 1 0 = [a] ∧ getAllUsersActivity s 1 1 = [b] := by
  simp only [getAllUsersActivity, h]
  exact ⟨rfl, rfl⟩

/-- C6 witness: the amended pagination theorem on a concrete two-record
store. -/
theorem list_two_record_pagination_witness :
    getAllUsersActivity
        { users := [mkRow 2 "b" "b@x" "8", mkRow 1 "a" "a@x" "7"], nextId := 3 } 1 0 =
      [mkRow 2 "b" "b@x" "8"] ∧
    getAllUsersActivity
        { users := [mkRow 2 "b" "b@x" "8", mkRow 1 "a" "a@x" "7"], nextId := 3 } 1 1 =
      [mkRow 1 "a" "a@x" "7"] :=
  list_two_record_pagination
    { users := [mkRow 2 "b" "b@x" "8", mkRow 1 "a" "a@x" "7"], nextId := 3 }
    (mkRow 2 "b" "b@x" "8") (mkRow 1 "a" "a@x" "7") (by decide)

/-- C8 counterexample: the workflow-id built for the list operation carries no
natural-key segment — it cannot be decomposed as the operation name, a key and
the submission timestamp. -/
theorem getAllUsers_workflowId_lacks_natural_key :
    ¬ ∃ key : String, getAllUsersWorkflowId 99 =
        "get-all-users" ++ "-" ++ key ++ "-" ++ toString (99 : Nat) := by
  rintro ⟨k, hk⟩
  have hlen := congrArg String.length hk
  rw [getAllUsersWorkflowId] at hlen
  simp only [String.length_append] at hlen
  have h1 : ("get-all-users-" : String).length = 14 := rfl
  have h2 : ("get-all-users" : String).length = 13 := rfl
  have h3 : ("-" : String).length = 1 := rfl
  have h4 : (toString (99 : Nat)).length = 2 := rfl
  rw [h1, h2, h3, h4] at hlen
  omega

/-- C8 (amended): the create, update and get clients build their workflow-ids
as the operation name, the operation's natural key (the mobile number or the
numeric id) and the submission timestamp joined by dashes; the list client
joins the operation name with the timestamp only, having no natural key. -/
theorem workflowIds_shapes (mobile : String) (id ts : Nat) :
    createUserWorkflowId mobile ts =
      "create-user" ++ "-" ++ mobile ++ "-" ++ toString ts ∧
    updateUserWorkflowId id ts =
      "update-user" ++ "-" ++ toString id ++ "-" ++ toString ts ∧
    getUserWorkflowId id ts =
      "get-user" ++ "-" ++ toString id ++ "-" ++ toString ts ∧
    getAllUsersWorkflowId ts = "get-all-users" ++ "-" ++ toString ts :=
  ⟨rfl, rfl, rfl, rfl⟩

/-- Dropping a prefix on which a predicate never holds does not change the
result of a first-match search. -/
theorem find_skip_none {α : Type} (p : α → Bool) (l1 l2 : List α)
    (h : l1.find? p = none) : (l1 ++ l2).find? p = l2.find? p := by
  induction l1 with
  | nil => rfl
  | cons a t ih =>
    rw [List.find?_cons] at h
    rcases hb : p a with _ | _
    · rw [hb] at h
      rw [List.cons_append, List.find?_cons, hb]
      exact ih h
    · rw [hb] at h
      exact absurd h (by simp)

/-- C9: on a well-formed store, creating a record and then getting it by the
returned id yields exactly the submitted name, email and mobile (with the
assigned id; the server-assigned audit columns are outside both
projections). -/
theorem create_then_get_roundtrip (s : Store) (now : Nat) (i : UserData)
    (hwf : Store.WF s) :
    getUserActivity (createUserActivity s now i).2 (createUserActivity s now i).1.id =
      some { id := s.nextId, name := i.name, email := i.email, mobile := i.mobile } := by
  have hnone : s.users.find? (fun u => u.live && u.id == s.nextId) = none := by
    rw [List.find?_eq_none]
    intro u hu
    simp only [Bool.and_eq_true, beq_iff_eq, not_and]
    intro _
    exact Nat.ne_of_lt (hwf u hu)
  simp only [getUserActivity, createUserActivity]
  rw [find_skip_none _ _ _ hnone]
  simp [List.find?_cons, UserRow.live]

/-- C9 witness: the round trip on the empty store with the example payload. -/
theorem create_then_get_roundtrip_witness :
    getUserActivity
        (createUserActivity { users := [], nextId := 0 } 7
          { name := "John Doe", email := "john@x.com", mobile := "1234567890" }).2
        (createUserActivity { users := [], nextId := 0 } 7
          { name := "John Doe", email := "john@x.com", mobile := "1234567890" }).1.id =
      some { id := 0, name := "John Doe", email := "john@x.com", mobile := "1234567890" } :=
  create_then_get_roundtrip { users := [], nextId := 0 } 7
    { name := "John Doe", email := "john@x.com", mobile := "1234567890" }
    (fun u hu => absurd hu (List.not_mem_nil u))
